import Mathlib

/-!
Shallow embedding of `codes/models/Inv_model.py` (class `InvSRModel`) from the
Invertible-Image-Rescaling repository.

Tensors are embedded symbolically: `TExpr` records exactly the tensor
operations the file performs (`torch.cat(dim=1)`, channel slicings
`[:, :3, :, :]` and `[:, 3:, :, :]`, calls to the single wrapped network
`self.netG`, scalar multiplication, `torch.randn`).  Randomness is embedded by
a draw counter carried in the model state: the `k`-th `torch.randn` call of a
run produces the expression `TExpr.randn shape k`, a standard-normal sample of
the given shape.  The network `networks.define_G` lives outside this file, so
its value behaviour is abstract; its shape behaviour is a parameter
`NetShape`.  Python attribute errors (reading `self.real_H` before it is set)
are embedded by `Option`-valued state fields and `Option`-valued methods.
-/

namespace InvModel

/-- A 4-D tensor shape `[n, c, h, w]`; entries are Python ints, hence `Int`. -/
structure Shape4 where
  n : Int
  c : Int
  h : Int
  w : Int
deriving DecidableEq, Repr

/-- Symbolic tensor expressions: the tensor operations `Inv_model.py` performs.
`randn sh k` is the result of the `k`-th `torch.randn` call (a standard-normal
sample of shape `sh`); `netG rev x` is the call `self.netG(x, rev=rev)` on the
single wrapped network; `cat1 a b` is `torch.cat((a, b), dim=1)`; `firstCh x`
is `x[:, :3, :, :]`; `restCh x` is `x[:, 3:, :, :]`; `smul c x` is `c * x`. -/
inductive TExpr : Type
  | input : String → Shape4 → TExpr
  | randn : Shape4 → Nat → TExpr
  | cat1 : TExpr → TExpr → TExpr
  | netG : Bool → TExpr → TExpr
  | firstCh : TExpr → TExpr
  | restCh : TExpr → TExpr
  | smul : Rat → TExpr → TExpr
deriving DecidableEq, Repr

/-- The shape semantics of the external network `networks.define_G` (out of
scope for this file): given the direction flag `rev` and the input shape, the
output shape. -/
abbrev NetShape : Type := Bool → Shape4 → Shape4

/-- Shape of a tensor expression, following torch semantics: `cat(dim=1)` adds
channel counts, `x[:, :3]` keeps `min 3 c` channels, `x[:, 3:]` keeps
`max 0 (c - 3)` channels. -/
def shapeOf (net : NetShape) : TExpr → Shape4
  | .input _ sh => sh
  | .randn sh _ => sh
  | .cat1 a b =>
      let sa := shapeOf net a
      let sb := shapeOf net b
      ⟨sa.n, sa.c + sb.c, sa.h, sa.w⟩
  | .netG rev x => net rev (shapeOf net x)
  | .firstCh x =>
      let sx := shapeOf net x
      ⟨sx.n, min 3 sx.c, sx.h, sx.w⟩
  | .restCh x =>
      let sx := shapeOf net x
      ⟨sx.n, max 0 (sx.c - 3), sx.h, sx.w⟩
  | .smul _ x => shapeOf net x

/-- Channel-level denotation of a tensor expression: the list of its channel
slices, as abstract tokens.  This mirrors the torch semantics of
concatenation along `dim=1` and of the channel slicings used in the file:
`cat` concatenates the channel lists, `[:, :3]` takes the first three,
`[:, 3:]` drops the first three. -/
inductive Chan : Type
  | ofInput : String → Shape4 → Nat → Chan
  | ofRandn : Shape4 → Nat → Nat → Chan
  | ofNet : Bool → TExpr → Nat → Chan
  | scaled : Rat → Chan → Chan
deriving DecidableEq, Repr

/-- The channel list of a tensor expression (see `Chan`). -/
def chans (net : NetShape) : TExpr → List Chan
  | .input nm sh => (List.range sh.c.toNat).map (Chan.ofInput nm sh)
  | .randn sh k => (List.range sh.c.toNat).map (Chan.ofRandn sh k)
  | .cat1 a b => chans net a ++ chans net b
  | .netG rev x => (List.range ((net rev (shapeOf net x)).c.toNat)).map (Chan.ofNet rev x)
  | .firstCh x => (chans net x).take 3
  | .restCh x => (chans net x).drop 3
  | .smul c x => (chans net x).map (Chan.scaled c)

/-- Python truthiness of an optional-int config entry (absent or 0 is falsy). -/
def truthyInt : Option Int → Bool
  | none => false
  | some n => if n = 0 then false else true

/-- Python truthiness of an optional-number config entry (absent or 0 is falsy). -/
def truthyRat : Option Rat → Bool
  | none => false
  | some q => if q = 0 then false else true

/-- Python truthiness of an optional-bool config entry (absent is falsy). -/
def truthyBool : Option Bool → Bool
  | none => false
  | some b => b

/-- Python truthiness of an optional-string config entry (absent or empty is falsy). -/
def truthyStr : Option String → Bool
  | none => false
  | some s => if s = "" then false else true

/-- The `opt['train']` sub-dictionary. Absent keys are `none` (the options
loader of this codebase maps missing keys to `None`). -/
structure TrainOpt where
  pixel_criterion : Option String := none
  pixel_criterion_forw : Option String := none
  pixel_criterion_back : Option String := none
  weight_decay_G : Option Rat := none
  lr_G : Rat := 0
  beta1 : Rat := 0
  beta2 : Rat := 0
  lr_scheme : String := ""
  lr_steps : List Int := []
  lr_gamma : Rat := 0
  clear_state : Bool := false
  T_period : List Int := []
  eta_min : Rat := 0
  lambda_fit_forw : Rat := 0
  lambda_mle_forw : Rat := 0
  lambda_rec_back : Rat := 0
  lambda_mle_back : Rat := 0
  padding_x : Option Int := none
  use_learned_y : Option Bool := none
  gradient_clipping : Option Rat := none
deriving DecidableEq, Repr

/-- The `opt['test']` sub-dictionary. -/
structure TestOpt where
  noise_scale : Option Rat := none
deriving DecidableEq, Repr

/-- The `opt['path']` sub-dictionary. -/
structure PathOpt where
  pretrain_model_G : Option String := none
  strict_load : Bool := true
deriving DecidableEq, Repr

/-- The options dictionary `opt` as used by `InvSRModel`. -/
structure Opt where
  dist : Bool := false
  scale : Int := 2
  is_train : Bool := true
  train : Option TrainOpt := none
  test : Option TestOpt := none
  path : PathOpt := {}
deriving DecidableEq, Repr

/-- The parallelization wrapper applied to the network in `__init__`. -/
inductive Wrapper : Type
  | distributedDataParallel
  | dataParallel
deriving DecidableEq, Repr

/-- Modelled from the spec: `networks.define_G` (in `models/networks.py`, not
part of this file) constructs the single invertible mapping network from the
options; its internals are out of scope, so the network is an abstract token
determined by the options it was built from. -/
structure BaseNet where
  built_with_scale : Int
deriving DecidableEq, Repr

/-- The function `networks.define_G(opt)` as an abstract constructor (see `BaseNet`). -/
def define_G (o : Opt) : BaseNet := ⟨o.scale⟩

/-- The wrapped network `self.netG`: the one network returned by `define_G`, wrapped once. -/
structure WrappedNet where
  base : BaseNet
  wrapper : Wrapper
deriving DecidableEq, Repr

/-- Symbolic scalar (loss) expressions. `recon t a b` is
`ReconstructionLoss(losstype=t)(a, b)`; `sumNorm z` is
`torch.sum(torch.norm(z.reshape([b, -1]), p=2, dim=1))`. -/
inductive LExpr : Type
  | zero : LExpr
  | recon : Option String → TExpr → TExpr → LExpr
  | sumNorm : TExpr → LExpr
  | scale : Rat → LExpr → LExpr
  | add : LExpr → LExpr → LExpr
deriving DecidableEq, Repr

/-- A learning-rate scheduler as configured in `__init__`. -/
inductive Sched : Type
  | multiStepLR_Restart (lr_steps : List Int) (gamma : Rat)
  | cosineAnnealingLR_Restart (T_period : List Int) (eta_min : Rat)
deriving DecidableEq, Repr

/-- An `torch.optim.Adam` optimizer as configured in `__init__`. -/
structure Adam where
  lr : Rat
  weight_decay : Rat
  beta1 : Rat
  beta2 : Rat
deriving DecidableEq, Repr

/-- The `nn.Module` train/eval mode. -/
inductive NetMode : Type
  | train
  | eval
deriving DecidableEq, Repr

/-- Observable framework effects of a method call, in program order.  The
`noGrad` flag on a network application records whether it ran inside a
`torch.no_grad()` block. -/
inductive Event : Type
  | zeroGrad
  | buildInput (padded : Bool)
  | forwardPass (noGrad : Bool)
  | reversePass (noGrad : Bool)
  | computeLossForward
  | computeLossBackward
  | sumLoss
  | backwardLoss
  | clipGradNorm
  | optimizerStep
  | setEval
  | setTrain
deriving DecidableEq, Repr

/-- The mutable attributes of an `InvSRModel` instance.  Attributes that
Python only creates on first assignment (`var_L`, `real_H`, ...) are
`Option`-valued; reading them while `none` is an `AttributeError`. -/
structure ModelState where
  netG : WrappedNet
  rank : Int
  mode : NetMode
  reconstruction_forw : Option String
  reconstruction_back : Option String
  optimizers : List Adam
  schedulers : List Sched
  rng : Nat := 0
  var_L : Option TExpr := none
  real_H : Option TExpr := none
  input : Option TExpr := none
  output : Option TExpr := none
  fake_H : Option TExpr := none
  forw_L : Option TExpr := none
  fake_H_forw : Option TExpr := none
deriving DecidableEq, Repr

/-- One batch of loader data, `data['LQ']` and `data['GT']`. -/
structure DataBatch where
  lq : TExpr
  gt : TExpr
deriving DecidableEq, Repr

/-- The error message of the `NotImplementedError` raised in `__init__` for an
unknown `lr_scheme`. -/
def notImplementedMsg : String := "MultiStepLR learning rate scheme is enough."

/-- The scheduler block of `__init__`: for each recognised `lr_scheme`, append
one scheduler per optimizer in `self.optimizers`; otherwise raise
`NotImplementedError`. -/
def build_schedulers (t : TrainOpt) (optimizers : List Adam) : Except String (List Sched) :=
  if t.lr_scheme = "MultiStepLR" then
    Except.ok (optimizers.map fun _ => Sched.multiStepLR_Restart t.lr_steps t.lr_gamma)
  else if t.lr_scheme = "CosineAnnealingLR_Restart" then
    Except.ok (optimizers.map fun _ => Sched.cosineAnnealingLR_Restart t.T_period t.eta_min)
  else
    Except.error notImplementedMsg

/-- Constructor `InvSRModel.__init__`: wrap `define_G(opt)` in `DistributedDataParallel`
when `opt['dist']` else `DataParallel`, set the rank, and in training mode
select the reconstruction criteria, build the single Adam optimizer and one
scheduler per optimizer (raising for an unknown `lr_scheme`).  `print_network`
and `load` are logging/IO side effects modelled separately (`load` below).
A fresh `nn.Module` starts in train mode. -/
def initModel (opt : Opt) : Except String ModelState :=
  let rank : Int := if opt.dist then 0 else -1
  let netG : WrappedNet :=
    { base := define_G opt,
      wrapper := if opt.dist then Wrapper.distributedDataParallel else Wrapper.dataParallel }
  if opt.is_train then
    match opt.train with
    | none => Except.error "TypeError: train options are None"
    | some t =>
      let rForw := if truthyStr t.pixel_criterion then t.pixel_criterion else t.pixel_criterion_forw
      let rBack := if truthyStr t.pixel_criterion then t.pixel_criterion else t.pixel_criterion_back
      let wd : Rat := if truthyRat t.weight_decay_G then t.weight_decay_G.getD 0 else 0
      let optimizer_G : Adam := { lr := t.lr_G, weight_decay := wd, beta1 := t.beta1, beta2 := t.beta2 }
      let optimizers := [optimizer_G]
      match build_schedulers t optimizers with
      | Except.error e => Except.error e
      | Except.ok scheds =>
        Except.ok
          { netG := netG, rank := rank, mode := NetMode.train,
            reconstruction_forw := rForw, reconstruction_back := rBack,
            optimizers := optimizers, schedulers := scheds }
  else
    Except.ok
      { netG := netG, rank := rank, mode := NetMode.train,
        reconstruction_forw := none, reconstruction_back := none,
        optimizers := [], schedulers := [] }

/-- Checkpoint actions performed by `load` / `save`. -/
inductive GAction : Type
  | loadNetwork (path : String) (strict : Bool)
  | noLoad
  | saveNetwork (label : String) (iter_label : Int)
deriving DecidableEq, Repr

/-- Method `InvSRModel.load`: load `opt['path']['pretrain_model_G']` with the
configured `strict_load` flag iff that path is not `None`. -/
def load (opt : Opt) : GAction :=
  match opt.path.pretrain_model_G with
  | some p => GAction.loadNetwork p opt.path.strict_load
  | none => GAction.noLoad

/-- Method `InvSRModel.save`: always delegate saving the network under label `'G'`. -/
def save (iter_label : Int) : GAction := GAction.saveNetwork "G" iter_label

/-- Method `InvSRModel.feed_data`: set `var_L` from `data['LQ']` and, when
`need_GT`, set `real_H` from `data['GT']`. -/
def feed_data (s : ModelState) (data : DataBatch) (need_GT : Bool) : ModelState :=
  let s1 := { s with var_L := some data.lq }
  if need_GT then { s1 with real_H := some data.gt } else s1

/-- Method `InvSRModel.noise_batch(dims)`: `torch.randn(tuple(dims))`, a fresh
standard-normal draw of the requested shape; the counter makes each call a
distinct sample. -/
def noise_batch (s : ModelState) (dims : Shape4) : TExpr × ModelState :=
  (TExpr.randn dims s.rng, { s with rng := s.rng + 1 })

/-- Method `InvSRModel.loss_forward(out, y)`: the fit term
`lambda_fit_forw * Reconstruction_forw(out[:, :3], y[:, :3])` and the
likelihood term `lambda_mle_forw * sum(norm(out[:, 3:].reshape(b, -1)))`. -/
def loss_forward (t : TrainOpt) (s : ModelState) (out y : TExpr) : LExpr × LExpr :=
  let l_forw_fit :=
    LExpr.scale t.lambda_fit_forw
      (LExpr.recon s.reconstruction_forw (TExpr.firstCh out) (TExpr.firstCh y))
  let l_forw_mle := LExpr.scale t.lambda_mle_forw (LExpr.sumNorm (TExpr.restCh out))
  (l_forw_fit, l_forw_mle)

/-- Method `InvSRModel.loss_backward(x, y)`: run the reverse pass
`x_samples = netG(y, rev=True)`, take the reconstruction term
`lambda_rec_back * Reconstruction_back(x, x_samples[:, :3])`, and when
`padding_x` is truthy the likelihood term
`lambda_mle_back * sum(norm(x_samples[:, 3:].reshape(b, -1)))`, else 0. -/
def loss_backward (t : TrainOpt) (s : ModelState) (x y : TExpr) : LExpr × LExpr :=
  let x_samples := TExpr.netG true y
  let x_samples_image := TExpr.firstCh x_samples
  let l_back_rec :=
    LExpr.scale t.lambda_rec_back (LExpr.recon s.reconstruction_back x x_samples_image)
  let l_back_mle :=
    if truthyInt t.padding_x then
      LExpr.scale t.lambda_mle_back (LExpr.sumNorm (TExpr.restCh x_samples))
    else LExpr.zero
  (l_back_rec, l_back_mle)

/-- Method `InvSRModel.optimize_parameters(step)`: zero gradients, build the input
(`real_H`, with `padding_x` noise channels appended when set), run the
forward pass, sample the latent noise for `y` (and for `yy` when
`use_learned_y`), compute both loss pairs, sum them into the training loss,
backpropagate, optionally clip gradients, and take one optimizer step.
Returns the new state, the event trace and the loss expression; `none` when
`train_opt` is `None` or `real_H`/`var_L` was never fed. -/
def optimize_parameters (net : NetShape) (opt : Opt) (s : ModelState) :
    Option (ModelState × List Event × LExpr) :=
  match opt.train with
  | none => none
  | some t =>
    match s.real_H, s.var_L with
    | some realH, some varL =>
      let (s1, inputE, padded) :=
        if truthyInt t.padding_x then
          let hsh := shapeOf net realH
          let (nz, s') := noise_batch s ⟨hsh.n, t.padding_x.getD 0, hsh.h, hsh.w⟩
          (s', TExpr.cat1 realH nz, true)
        else (s, realH, false)
      let outputE := TExpr.netG false inputE
      let zsh := shapeOf net (TExpr.restCh outputE)
      let (zn, s2) := noise_batch s1 zsh
      let y := TExpr.cat1 varL zn
      let (yy, s3) :=
        if truthyBool t.use_learned_y then
          let (zn2, s') := noise_batch s2 zsh
          (TExpr.cat1 (TExpr.firstCh outputE) zn2, s')
        else (y, s2)
      let (l_forw_fit, l_forw_mle) := loss_forward t s outputE y
      let (l_back_rec, l_back_mle) := loss_backward t s realH yy
      let loss :=
        LExpr.add LExpr.zero
          (LExpr.add (LExpr.add (LExpr.add l_forw_fit l_back_rec) l_forw_mle) l_back_mle)
      some ({ s3 with input := some inputE, output := some outputE },
        [Event.zeroGrad, Event.buildInput padded, Event.forwardPass false,
         Event.computeLossForward, Event.computeLossBackward, Event.sumLoss,
         Event.backwardLoss]
        ++ (if truthyRat t.gradient_clipping then [Event.clipGradNorm] else [])
        ++ [Event.optimizerStep],
        loss)
    | _, _ => none

/-- The padding condition of `test`: `self.train_opt and
self.train_opt['padding_x']`, returning the padding channel count when truthy. -/
def test_pad (opt : Opt) : Option Int :=
  match opt.train with
  | none => none
  | some t =>
    match t.padding_x with
    | none => none
    | some p => if p = 0 then none else some p

/-- The quantity `input_dim` as computed in `test`: the low-resolution channel count, plus
the padding channel count when padding is on. -/
def test_input_dim (opt : Opt) (Lc : Int) : Int :=
  match test_pad opt with
  | some p => p + Lc
  | none => Lc

/-- The shape `zshape` as computed in `test`:
`[Lshape[0], input_dim * scale**2 - Lshape[1], Lshape[2], Lshape[3]]`. -/
def test_zshape (opt : Opt) (Lshape : Shape4) (input_dim : Int) : Shape4 :=
  ⟨Lshape.n, input_dim * opt.scale ^ 2 - Lshape.c, Lshape.h, Lshape.w⟩

/-- The factor `noise_scale` as computed in `test`: `test_opt['noise_scale']` when
`test_opt` is present and that entry is truthy, else 1. -/
def noiseScale (opt : Opt) : Rat :=
  match opt.test with
  | none => 1
  | some tst =>
    match tst.noise_scale with
    | none => 1
    | some q => if q = 0 then 1 else q

/-- Method `InvSRModel.test()`: build the forward input (reading `real_H`
unconditionally), sample scaled latent noise of shape `zshape`, put the
network in eval mode, compute under `no_grad` the reconstruction `fake_H`
from `var_L`, the forward degradation `forw_L`, and the reconstruction
`fake_H_forw` from `forw_L`, then return the network to train mode.  `none`
when `var_L` or `real_H` was never fed (Python `AttributeError`). -/
def test (net : NetShape) (opt : Opt) (s : ModelState) :
    Option (ModelState × List Event) :=
  match s.var_L, s.real_H with
  | some varL, some realH =>
    let Lshape := shapeOf net varL
    let input_dim := test_input_dim opt Lshape.c
    let (s1, inputE, padded) :=
      match test_pad opt with
      | some pdim =>
        let hsh := shapeOf net realH
        let (nz, s') := noise_batch s ⟨hsh.n, pdim, hsh.h, hsh.w⟩
        (s', TExpr.cat1 realH nz, true)
      | none => (s, realH, false)
    let zsh := test_zshape opt Lshape input_dim
    let ns := noiseScale opt
    let (zn1, s2) := noise_batch s1 zsh
    let y := TExpr.cat1 varL (TExpr.smul ns zn1)
    let fakeH := TExpr.firstCh (TExpr.netG true y)
    let forwL := TExpr.firstCh (TExpr.netG false inputE)
    let (zn2, s3) := noise_batch s2 zsh
    let y_forw := TExpr.cat1 forwL (TExpr.smul ns zn2)
    let fakeHForw := TExpr.firstCh (TExpr.netG true y_forw)
    some
      ({ s3 with
          input := some inputE,
          fake_H := some fakeH,
          forw_L := some forwL,
          fake_H_forw := some fakeHForw,
          mode := NetMode.train },
       [Event.buildInput padded, Event.setEval, Event.reversePass true,
        Event.forwardPass true, Event.reversePass true, Event.setTrain])
  | _, _ => none

/-! Concrete fixtures used by witness theorems. -/

/-- Identity shape behaviour for the external network, used in concrete runs. -/
def netId : NetShape := fun _ sh => sh

/-- A concrete training configuration (no padding, clipping on). -/
def trainA : TrainOpt :=
  { pixel_criterion := some "l2", lr_scheme := "MultiStepLR", lr_G := 1,
    beta1 := 9/10, beta2 := 99/100, lr_steps := [100], lr_gamma := 1/2,
    lambda_fit_forw := 16, lambda_mle_forw := 1, lambda_rec_back := 1,
    lambda_mle_back := 1, gradient_clipping := some 10 }

/-- A concrete options dictionary built around `trainA`. -/
def optA : Opt :=
  { dist := false, scale := 2, is_train := true, train := some trainA,
    test := some { noise_scale := some 2 },
    path := { pretrain_model_G := some "model.pth", strict_load := true } }

/-- A concrete low-resolution batch tensor. -/
def lqA : TExpr := TExpr.input "LQ" ⟨1, 3, 8, 8⟩

/-- A concrete ground-truth batch tensor. -/
def gtA : TExpr := TExpr.input "GT" ⟨1, 3, 16, 16⟩

/-- The state `initModel optA` produces. -/
def s0A : ModelState :=
  { netG := { base := define_G optA, wrapper := Wrapper.dataParallel },
    rank := -1, mode := NetMode.train,
    reconstruction_forw := some "l2", reconstruction_back := some "l2",
    optimizers := [{ lr := 1, weight_decay := 0, beta1 := 9/10, beta2 := 99/100 }],
    schedulers := [Sched.multiStepLR_Restart [100] (1/2)] }

/-- The state `s0A` after `feed_data` with ground truth. -/
def sReady : ModelState := feed_data s0A { lq := lqA, gt := gtA } true

/-- An options dictionary with all entries absent. -/
def optNone : Opt := {}

/-! Theorems for the claims. -/

/-- C1: after `feed_data`, every `test()` call sets the reconstruction
`fake_H` to the first 3 channels of the network applied in reverse
(`rev=True`) to the channel-wise concatenation of `var_L` with
`noise_scale`-scaled latent noise sampled at the computed shape `zshape`. -/
theorem c1_test_reconstruction (net : NetShape) (opt : Opt) (s : ModelState)
    (l hh : TExpr) (hL : s.var_L = some l) (hH : s.real_H = some hh) :
    ∃ s' ev k, test net opt s = some (s', ev) ∧
      s'.fake_H = some (TExpr.firstCh (TExpr.netG true (TExpr.cat1 l (TExpr.smul (noiseScale opt)
        (TExpr.randn (test_zshape opt (shapeOf net l) (test_input_dim opt (shapeOf net l).c))
          k))))) := by
  rcases hp : test_pad opt with _ | pdim <;>
    simp only [test, hL, hH, hp, noise_batch] <;>
    exact ⟨_, _, _, rfl, rfl⟩

/-- Witness for C1: a concrete `test()` run after `feed_data`. -/
theorem c1_test_reconstruction_witness :
    ∃ s' ev k, test netId optA sReady = some (s', ev) ∧
      s'.fake_H = some (TExpr.firstCh (TExpr.netG true (TExpr.cat1 lqA (TExpr.smul (noiseScale optA)
        (TExpr.randn (test_zshape optA (shapeOf netId lqA) (test_input_dim optA (shapeOf netId lqA).c))
          k))))) :=
  c1_test_reconstruction netId optA sReady lqA gtA rfl rfl

/-- C2: every `optimize_parameters` call performs, in order: zero the
optimizer gradients, build the network input (ground truth `real_H`, with
noise channels appended exactly when `padding_x` is set), run the forward
pass, compute the forward-direction then the backward-direction loss terms,
sum them into a single loss, call backward on that loss, clip gradients
exactly when `gradient_clipping` is set, and finally take one optimizer
step. -/
theorem c2_optimize_order (net : NetShape) (opt : Opt) (s : ModelState)
    (t : TrainOpt) (realH varL : TExpr)
    (hT : opt.train = some t) (hH : s.real_H = some realH) (hL : s.var_L = some varL) :
    ∃ s' L, optimize_parameters net opt s =
        some (s',
          [Event.zeroGrad, Event.buildInput (truthyInt t.padding_x), Event.forwardPass false,
           Event.computeLossForward, Event.computeLossBackward, Event.sumLoss,
           Event.backwardLoss]
          ++ (if truthyRat t.gradient_clipping then [Event.clipGradNorm] else [])
          ++ [Event.optimizerStep], L) ∧
      (truthyInt t.padding_x = false → s'.input = some realH) ∧
      (truthyInt t.padding_x = true →
        ∃ sh, s'.input = some (TExpr.cat1 realH (TExpr.randn sh s.rng))) := by
  cases hpad : truthyInt t.padding_x <;>
    cases huly : truthyBool t.use_learned_y <;>
    simp [optimize_parameters, hT, hH, hL, hpad, huly, noise_batch]

/-- Witness for C2: a concrete `optimize_parameters` run (no padding,
clipping on). -/
theorem c2_optimize_order_witness :
    ∃ s' L, optimize_parameters netId optA sReady =
        some (s',
          [Event.zeroGrad, Event.buildInput (truthyInt trainA.padding_x), Event.forwardPass false,
           Event.computeLossForward, Event.computeLossBackward, Event.sumLoss,
           Event.backwardLoss]
          ++ (if truthyRat trainA.gradient_clipping then [Event.clipGradNorm] else [])
          ++ [Event.optimizerStep], L) ∧
      (truthyInt trainA.padding_x = false → s'.input = some gtA) ∧
      (truthyInt trainA.padding_x = true →
        ∃ sh, s'.input = some (TExpr.cat1 gtA (TExpr.randn sh sReady.rng))) :=
  c2_optimize_order netId optA sReady trainA gtA lqA rfl rfl rfl

/-- Slicing the first three channels of `cat(a, b, dim=1)` yields exactly the
channels of `a` when `a` has three channels. -/
theorem chans_firstCh_cat (net : NetShape) (a b : TExpr)
    (h3 : (chans net a).length = 3) :
    chans net (TExpr.firstCh (TExpr.cat1 a b)) = chans net a := by
  show (chans net a ++ chans net b).take 3 = chans net a
  rw [← h3, List.take_left]

/-- C3: every training step computes two loss terms per direction — forward:
a fit term `lambda_fit_forw * Recon(out[:, :3], y[:, :3])` whose target slice
`y[:, :3]` is exactly the low-resolution input `var_L`, and a likelihood term
`lambda_mle_forw` times the summed per-sample L2 norms of the remaining
channels; backward: a reconstruction term on the first 3 channels of the
reverse pass against the ground truth, and a likelihood term on the
remaining channels (`0` when `padding_x` is unset) — and sums the four into
the training loss. -/
theorem c3_loss_terms (net : NetShape) (opt : Opt) (s : ModelState)
    (t : TrainOpt) (realH varL : TExpr)
    (hT : opt.train = some t) (hH : s.real_H = some realH) (hL : s.var_L = some varL)
    (h3 : (chans net varL).length = 3) :
    ∃ s' ev out y yy,
      optimize_parameters net opt s = some (s', ev,
        LExpr.add LExpr.zero
          (LExpr.add
            (LExpr.add (LExpr.add (loss_forward t s out y).1 (loss_backward t s realH yy).1)
              (loss_forward t s out y).2)
            (loss_backward t s realH yy).2)) ∧
      loss_forward t s out y =
        (LExpr.scale t.lambda_fit_forw
            (LExpr.recon s.reconstruction_forw (TExpr.firstCh out) (TExpr.firstCh y)),
         LExpr.scale t.lambda_mle_forw (LExpr.sumNorm (TExpr.restCh out))) ∧
      loss_backward t s realH yy =
        (LExpr.scale t.lambda_rec_back
            (LExpr.recon s.reconstruction_back realH (TExpr.firstCh (TExpr.netG true yy))),
         if truthyInt t.padding_x then
           LExpr.scale t.lambda_mle_back (LExpr.sumNorm (TExpr.restCh (TExpr.netG true yy)))
         else LExpr.zero) ∧
      (∃ zn, y = TExpr.cat1 varL zn) ∧
      chans net (TExpr.firstCh y) = chans net varL := by
  cases hpad : truthyInt t.padding_x <;>
    cases huly : truthyBool t.use_learned_y <;>
    simp only [optimize_parameters, hT, hH, hL, hpad, huly, noise_batch,
      Bool.false_eq_true, reduceIte] <;>
    exact ⟨_, _, _, _, _, rfl, rfl, by simp [loss_backward, hpad], ⟨_, rfl⟩,
      chans_firstCh_cat net varL _ h3⟩

/-- Witness for C3: a concrete training step with a 3-channel input. -/
theorem c3_loss_terms_witness :
    ∃ s' ev out y yy,
      optimize_parameters netId optA sReady = some (s', ev,
        LExpr.add LExpr.zero
          (LExpr.add
            (LExpr.add (LExpr.add (loss_forward trainA sReady out y).1
                (loss_backward trainA sReady gtA yy).1)
              (loss_forward trainA sReady out y).2)
            (loss_backward trainA sReady gtA yy).2)) ∧
      loss_forward trainA sReady out y =
        (LExpr.scale trainA.lambda_fit_forw
            (LExpr.recon sReady.reconstruction_forw (TExpr.firstCh out) (TExpr.firstCh y)),
         LExpr.scale trainA.lambda_mle_forw (LExpr.sumNorm (TExpr.restCh out))) ∧
      loss_backward trainA sReady gtA yy =
        (LExpr.scale trainA.lambda_rec_back
            (LExpr.recon sReady.reconstruction_back gtA
              (TExpr.firstCh (TExpr.netG true yy))),
         if truthyInt trainA.padding_x then
           LExpr.scale trainA.lambda_mle_back (LExpr.sumNorm (TExpr.restCh (TExpr.netG true yy)))
         else LExpr.zero) ∧
      (∃ zn, y = TExpr.cat1 lqA zn) ∧
      chans netId (TExpr.firstCh y) = chans netId lqA :=
  c3_loss_terms netId optA sReady trainA gtA lqA rfl rfl rfl (by decide)

/-- C4: `test()` is an eval-mode procedure: the network is put into eval mode
before the reverse-pass reconstructions, the reconstructions and the forward
degradation all run under `no_grad`, and the network is back in train mode by
the end of `test()`; no other method (`feed_data`, `optimize_parameters`)
ever puts the network in eval mode. -/
theorem c4_eval_mode_discipline (net : NetShape) (opt : Opt) (s : ModelState)
    (l hh : TExpr) (hL : s.var_L = some l) (hH : s.real_H = some hh)
    (hm : s.mode = NetMode.train) :
    (∃ s' b, test net opt s = some (s',
        [Event.buildInput b, Event.setEval, Event.reversePass true,
         Event.forwardPass true, Event.reversePass true, Event.setTrain]) ∧
      s'.mode = NetMode.train) ∧
    (∀ d g, (feed_data s d g).mode = NetMode.train) ∧
    (∀ s' ev L, optimize_parameters net opt s = some (s', ev, L) →
      s'.mode = NetMode.train ∧ Event.setEval ∉ ev) := by
  refine ⟨?_, ?_, ?_⟩
  · rcases hp : test_pad opt with _ | pdim <;>
      simp only [test, hL, hH, hp, noise_batch] <;>
      exact ⟨_, _, rfl, rfl⟩
  · intro d g
    cases g <;> simp [feed_data, hm]
  · intro s' ev L h
    rcases hOT : opt.train with _ | t
    · rw [optimize_parameters, hOT] at h
      cases h
    · cases hpad : truthyInt t.padding_x <;>
        cases huly : truthyBool t.use_learned_y <;>
        cases hclip : truthyRat t.gradient_clipping <;>
        simp only [optimize_parameters, hOT, hL, hH, hpad, huly, hclip, noise_batch,
          Bool.false_eq_true, reduceIte, Option.some.injEq, Prod.mk.injEq] at h <;>
        obtain ⟨hs, he, -⟩ := h <;>
        subst hs <;> subst he <;>
        exact ⟨hm ▸ rfl, by decide⟩

/-- Witness for C4: a concrete model state in train mode. -/
theorem c4_eval_mode_discipline_witness :
    (∃ s' b, test netId optA sReady = some (s',
        [Event.buildInput b, Event.setEval, Event.reversePass true,
         Event.forwardPass true, Event.reversePass true, Event.setTrain]) ∧
      s'.mode = NetMode.train) ∧
    (∀ d g, (feed_data sReady d g).mode = NetMode.train) ∧
    (∀ s' ev L, optimize_parameters netId optA sReady = some (s', ev, L) →
      s'.mode = NetMode.train ∧ Event.setEval ∉ ev) :=
  c4_eval_mode_discipline netId optA sReady lqA gtA rfl rfl rfl

/-- C5: reconstruction-time latent noise always comes from `noise_batch`
(a standard-normal `torch.randn` sample of the requested shape), and in
`test()` it is scaled by `test_opt['noise_scale']` when `test_opt` is present
and that entry is set, and by 1 otherwise: both reverse-pass inputs of
`test()` carry `noiseScale opt`-scaled fresh noise. -/
theorem c5_noise_distribution_scale (net : NetShape) (opt : Opt) (s : ModelState)
    (l hh : TExpr) (hL : s.var_L = some l) (hH : s.real_H = some hh) :
    (∀ dims, (noise_batch s dims).1 = TExpr.randn dims s.rng) ∧
    (∀ o : Opt, o.test = none → noiseScale o = 1) ∧
    (∀ o : Opt, ∀ tst : TestOpt, o.test = some tst → truthyRat tst.noise_scale = false →
      noiseScale o = 1) ∧
    (∀ o : Opt, ∀ q : Rat, o.test = some { noise_scale := some q } → q ≠ 0 →
      noiseScale o = q) ∧
    (∃ s' ev inp k1 k2, test net opt s = some (s', ev) ∧
      s'.fake_H = some (TExpr.firstCh (TExpr.netG true (TExpr.cat1 l
        (TExpr.smul (noiseScale opt) (TExpr.randn (test_zshape opt (shapeOf net l)
          (test_input_dim opt (shapeOf net l).c)) k1))))) ∧
      s'.forw_L = some (TExpr.firstCh (TExpr.netG false inp)) ∧
      s'.fake_H_forw = some (TExpr.firstCh (TExpr.netG true (TExpr.cat1
        (TExpr.firstCh (TExpr.netG false inp))
        (TExpr.smul (noiseScale opt) (TExpr.randn (test_zshape opt (shapeOf net l)
          (test_input_dim opt (shapeOf net l).c)) k2)))))) := by
  refine ⟨fun dims => rfl, fun o ho => by simp [noiseScale, ho], ?_, ?_, ?_⟩
  · intro o tst ho hq
    rcases tst with ⟨_ | q⟩
    · simp [noiseScale, ho]
    · simp only [truthyRat] at hq
      have hq0 : q = 0 := by
        by_contra hne
        simp [hne] at hq
      simp [noiseScale, ho, hq0]
  · intro o q ho hq
    simp [noiseScale, ho, hq]
  · rcases hp : test_pad opt with _ | pdim <;>
      simp only [test, hL, hH, hp, noise_batch] <;>
      exact ⟨_, _, _, _, _, rfl, rfl, rfl, rfl⟩

/-- Witness for C5: a concrete `test()` run. -/
theorem c5_noise_distribution_scale_witness :
    (∀ dims, (noise_batch sReady dims).1 = TExpr.randn dims sReady.rng) ∧
    (∀ o : Opt, o.test = none → noiseScale o = 1) ∧
    (∀ o : Opt, ∀ tst : TestOpt, o.test = some tst → truthyRat tst.noise_scale = false →
      noiseScale o = 1) ∧
    (∀ o : Opt, ∀ q : Rat, o.test = some { noise_scale := some q } → q ≠ 0 →
      noiseScale o = q) ∧
    (∃ s' ev inp k1 k2, test netId optA sReady = some (s', ev) ∧
      s'.fake_H = some (TExpr.firstCh (TExpr.netG true (TExpr.cat1 lqA
        (TExpr.smul (noiseScale optA) (TExpr.randn (test_zshape optA (shapeOf netId lqA)
          (test_input_dim optA (shapeOf netId lqA).c)) k1))))) ∧
      s'.forw_L = some (TExpr.firstCh (TExpr.netG false inp)) ∧
      s'.fake_H_forw = some (TExpr.firstCh (TExpr.netG true (TExpr.cat1
        (TExpr.firstCh (TExpr.netG false inp))
        (TExpr.smul (noiseScale optA) (TExpr.randn (test_zshape optA (shapeOf netId lqA)
          (test_input_dim optA (shapeOf netId lqA).c)) k2)))))) :=
  c5_noise_distribution_scale netId optA sReady lqA gtA rfl rfl

/-- C6: at construction the single network returned by `define_G` is wrapped
in `DistributedDataParallel` exactly when `opt['dist']` is true and in
`DataParallel` otherwise, and that one wrapped network (`netG`) is preserved
by every subsequent method call — every forward and reverse application in
the embedding is `TExpr.netG`, a call to that single `self.netG`. -/
theorem c6_network_wrapping (opt : Opt) (net : NetShape) (s0 sa sb : ModelState)
    (h0 : initModel opt = Except.ok s0) :
    s0.netG.base = define_G opt ∧
    s0.netG.wrapper =
      (if opt.dist then Wrapper.distributedDataParallel else Wrapper.dataParallel) ∧
    (∀ d g, (feed_data sa d g).netG = sa.netG) ∧
    (∀ s' ev L, optimize_parameters net opt sa = some (s', ev, L) → s'.netG = sa.netG) ∧
    (∀ s' ev, test net opt sb = some (s', ev) → s'.netG = sb.netG) := by
  have hG : s0.netG = ⟨define_G opt,
      if opt.dist then Wrapper.distributedDataParallel else Wrapper.dataParallel⟩ := by
    unfold initModel at h0
    simp only [] at h0
    repeat' split at h0
    all_goals try exact Except.noConfusion h0
    all_goals injection h0 with h
    all_goals subst h
    all_goals simp_all
  refine ⟨by rw [hG], by rw [hG], fun d g => by cases g <;> rfl, ?_, ?_⟩
  · intro s' ev L h
    rcases hOT : opt.train with _ | t
    · rw [optimize_parameters, hOT] at h
      cases h
    · rcases hHa : sa.real_H with _ | realH <;> rcases hLa : sa.var_L with _ | varL <;>
        simp only [optimize_parameters, hOT, hHa, hLa] at h
      · cases h
      · cases h
      · cases h
      · cases hpad : truthyInt t.padding_x <;>
          cases huly : truthyBool t.use_learned_y <;>
          simp only [hpad, huly, noise_batch, Bool.false_eq_true, reduceIte,
            Option.some.injEq, Prod.mk.injEq] at h <;>
          obtain ⟨hs, -, -⟩ := h <;>
          subst hs <;> rfl
  · intro s' ev h
    rcases hHb : sb.real_H with _ | realH <;> rcases hLb : sb.var_L with _ | varL <;>
      simp only [test, hHb, hLb] at h
    · cases h
    · cases h
    · cases h
    · rcases hp : test_pad opt with _ | pdim <;>
        simp only [hp, noise_batch, Option.some.injEq, Prod.mk.injEq] at h <;>
        obtain ⟨hs, -⟩ := h <;>
        subst hs <;> rfl

/-- Witness for C6: the concrete construction `initModel optA` and concrete
method calls. -/
theorem c6_network_wrapping_witness :
    s0A.netG.base = define_G optA ∧
    s0A.netG.wrapper =
      (if optA.dist then Wrapper.distributedDataParallel else Wrapper.dataParallel) ∧
    (∀ d g, (feed_data sReady d g).netG = sReady.netG) ∧
    (∀ s' ev L, optimize_parameters netId optA sReady = some (s', ev, L) →
      s'.netG = sReady.netG) ∧
    (∀ s' ev, test netId optA sReady = some (s', ev) → s'.netG = sReady.netG) :=
  c6_network_wrapping optA netId s0A sReady sReady rfl

/-- C7: checkpoint load is conditional and save is unconditional — `load()`
loads from `opt['path']['pretrain_model_G']` with the configured
`strict_load` flag iff that path is not `None` and does nothing otherwise;
`save(iter_label)` always saves the single network under label `'G'`. -/
theorem c7_load_save (o1 o2 : Opt) (p : String) (i : Int)
    (h1 : o1.path.pretrain_model_G = some p) (h2 : o2.path.pretrain_model_G = none) :
    load o1 = GAction.loadNetwork p o1.path.strict_load ∧
    load o2 = GAction.noLoad ∧
    save i = GAction.saveNetwork "G" i := by
  refine ⟨?_, ?_, rfl⟩
  · simp [load, h1]
  · simp [load, h2]

/-- Witness for C7: concrete options with and without a pretrain path. -/
theorem c7_load_save_witness :
    load optA = GAction.loadNetwork "model.pth" optA.path.strict_load ∧
    load optNone = GAction.noLoad ∧
    save 7 = GAction.saveNetwork "G" 7 :=
  c7_load_save optA optNone "model.pth" 7 rfl rfl

/-- C8: for a training-mode construction, an `lr_scheme` other than
`MultiStepLR` or `CosineAnnealingLR_Restart` makes the constructor raise
`NotImplementedError`; for each of those two values exactly one scheduler of
the corresponding kind is appended per optimizer. -/
theorem c8_scheduler_scheme (opt : Opt) (t : TrainOpt)
    (hTr : opt.is_train = true) (hT : opt.train = some t) :
    (t.lr_scheme ≠ "MultiStepLR" → t.lr_scheme ≠ "CosineAnnealingLR_Restart" →
      initModel opt = Except.error notImplementedMsg) ∧
    (t.lr_scheme = "MultiStepLR" → ∃ s0, initModel opt = Except.ok s0 ∧
      s0.schedulers =
        s0.optimizers.map (fun _ => Sched.multiStepLR_Restart t.lr_steps t.lr_gamma) ∧
      s0.schedulers.length = s0.optimizers.length) ∧
    (t.lr_scheme = "CosineAnnealingLR_Restart" → ∃ s0, initModel opt = Except.ok s0 ∧
      s0.schedulers =
        s0.optimizers.map (fun _ => Sched.cosineAnnealingLR_Restart t.T_period t.eta_min) ∧
      s0.schedulers.length = s0.optimizers.length) := by
  refine ⟨?_, ?_, ?_⟩
  · intro hm hc
    simp [initModel, hTr, hT, build_schedulers, hm, hc]
  · intro hm
    simp only [initModel, hTr, hT, build_schedulers, hm, reduceIte]
    exact ⟨_, rfl, rfl, rfl⟩
  · intro hc
    simp only [initModel, hTr, hT, build_schedulers, hc, reduceIte]
    exact ⟨_, rfl, rfl, rfl⟩

/-- Witness for C8: the concrete training construction with `MultiStepLR`. -/
theorem c8_scheduler_scheme_witness :
    (trainA.lr_scheme ≠ "MultiStepLR" → trainA.lr_scheme ≠ "CosineAnnealingLR_Restart" →
      initModel optA = Except.error notImplementedMsg) ∧
    (trainA.lr_scheme = "MultiStepLR" → ∃ s0, initModel optA = Except.ok s0 ∧
      s0.schedulers =
        s0.optimizers.map (fun _ => Sched.multiStepLR_Restart trainA.lr_steps trainA.lr_gamma) ∧
      s0.schedulers.length = s0.optimizers.length) ∧
    (trainA.lr_scheme = "CosineAnnealingLR_Restart" → ∃ s0, initModel optA = Except.ok s0 ∧
      s0.schedulers =
        s0.optimizers.map (fun _ => Sched.cosineAnnealingLR_Restart trainA.T_period trainA.eta_min) ∧
      s0.schedulers.length = s0.optimizers.length) :=
  c8_scheduler_scheme optA trainA rfl rfl

/-- C9: channel accounting in `test()` — the sampled latent noise has exactly
`input_dim * scale^2 - Lshape[1]` channels, where `input_dim` is the
low-resolution channel count plus `padding_x` when set, so the reverse-pass
input `y` has exactly `input_dim * scale^2` channels; the arithmetic is exact
over `Int`. -/
theorem c9_channel_accounting (net : NetShape) (opt : Opt) (s : ModelState)
    (l hh : TExpr) (Lc dI : Int)
    (hL : s.var_L = some l) (hH : s.real_H = some hh)
    (hLc : Lc = (shapeOf net l).c) (hdI : dI = test_input_dim opt Lc) :
    (test_zshape opt (shapeOf net l) dI).c = dI * opt.scale ^ 2 - Lc ∧
    Lc + (test_zshape opt (shapeOf net l) dI).c = dI * opt.scale ^ 2 ∧
    (opt.train = none → dI = Lc) ∧
    (∀ t : TrainOpt, opt.train = some t → truthyInt t.padding_x = false → dI = Lc) ∧
    (∀ t : TrainOpt, ∀ p : Int, opt.train = some t → t.padding_x = some p → p ≠ 0 →
      dI = p + Lc) ∧
    (∃ s' ev k, test net opt s = some (s', ev) ∧
      s'.fake_H = some (TExpr.firstCh (TExpr.netG true (TExpr.cat1 l (TExpr.smul (noiseScale opt)
        (TExpr.randn (test_zshape opt (shapeOf net l) dI) k))))) ∧
      (shapeOf net (TExpr.cat1 l (TExpr.smul (noiseScale opt)
        (TExpr.randn (test_zshape opt (shapeOf net l) dI) k)))).c = dI * opt.scale ^ 2) := by
  subst hLc
  subst hdI
  refine ⟨rfl, ?_, ?_, ?_, ?_, ?_⟩
  · simp only [test_zshape]
    ring
  · intro h
    simp [test_input_dim, test_pad, h]
  · intro t h hf
    rcases hpx : t.padding_x with _ | p
    · simp [test_input_dim, test_pad, h, hpx]
    · have hp0 : p = 0 := by
        by_contra hne
        simp [truthyInt, hpx, hne] at hf
      simp [test_input_dim, test_pad, h, hpx, hp0]
  · intro t p h hp hne
    simp [test_input_dim, test_pad, h, hp, hne]
  · rcases hp : test_pad opt with _ | pdim <;>
      simp only [test, hL, hH, hp, noise_batch] <;>
      refine ⟨_, _, _, rfl, rfl, ?_⟩ <;>
      simp only [shapeOf, test_zshape] <;>
      ring

/-- Witness for C9: the concrete `test()` run with 3-channel input and
scale 2. -/
theorem c9_channel_accounting_witness :
    (test_zshape optA (shapeOf netId lqA) 3).c = 3 * optA.scale ^ 2 - 3 ∧
    3 + (test_zshape optA (shapeOf netId lqA) 3).c = 3 * optA.scale ^ 2 ∧
    (optA.train = none → (3 : Int) = 3) ∧
    (∀ t : TrainOpt, optA.train = some t → truthyInt t.padding_x = false → (3 : Int) = 3) ∧
    (∀ t : TrainOpt, ∀ p : Int, optA.train = some t → t.padding_x = some p → p ≠ 0 →
      (3 : Int) = p + 3) ∧
    (∃ s' ev k, test netId optA sReady = some (s', ev) ∧
      s'.fake_H = some (TExpr.firstCh (TExpr.netG true (TExpr.cat1 lqA (TExpr.smul (noiseScale optA)
        (TExpr.randn (test_zshape optA (shapeOf netId lqA) 3) k))))) ∧
      (shapeOf netId (TExpr.cat1 lqA (TExpr.smul (noiseScale optA)
        (TExpr.randn (test_zshape optA (shapeOf netId lqA) 3) k)))).c = 3 * optA.scale ^ 2) :=
  c9_channel_accounting netId optA sReady lqA gtA 3 3 rfl rfl rfl rfl

/-- C10: `test()` reads `real_H` unconditionally, so it requires a prior
`feed_data` with `need_GT=True`: feeding with `need_GT=False` sets only
`var_L`, leaves `real_H` unset, and `test()` then fails, while feeding with
`need_GT=True` makes `test()` succeed. -/
theorem c10_real_H_precondition (net : NetShape) (opt : Opt) (s : ModelState)
    (d : DataBatch) (hH : s.real_H = none) :
    (feed_data s d false).var_L = some d.lq ∧
    (feed_data s d false).real_H = none ∧
    test net opt (feed_data s d false) = none ∧
    (∃ s' ev, test net opt (feed_data s d true) = some (s', ev)) := by
  refine ⟨rfl, by simp [feed_data, hH], ?_, ?_⟩
  · simp [test, feed_data, hH]
  · rcases hp : test_pad opt with _ | pdim <;>
      simp only [test, feed_data, noise_batch, hp, reduceIte] <;>
      exact ⟨_, _, rfl⟩

/-- Witness for C10: a concrete state that was never fed ground truth. -/
theorem c10_real_H_precondition_witness :
    (feed_data s0A { lq := lqA, gt := gtA } false).var_L = some lqA ∧
    (feed_data s0A { lq := lqA, gt := gtA } false).real_H = none ∧
    test netId optA (feed_data s0A { lq := lqA, gt := gtA } false) = none ∧
    (∃ s' ev, test netId optA (feed_data s0A { lq := lqA, gt := gtA } true) = some (s', ev)) :=
  c10_real_H_precondition netId optA s0A { lq := lqA, gt := gtA } rfl

end InvModel
